import Mathlib

/-
Verification of the lifecycle orchestrator in
pkg/driver/executor/executor.go (machine-controller-manager-provider-openstack).

The Go code is shallowly embedded: every external call (compute / network
client) is a response function stored in a client structure, errors are an
explicit inductive mirroring the wrapping behaviour of fmt.Errorf
(distinguishing the %w wrapping that errors.Is traverses from the %v / %s
flattening that it does not), and the one-second poller is a fuel-indexed
recursion whose fuel is the second budget. Helper functions of the
repository that live outside the executor file (provider-id codec, empty
string test, slice membership, status constants, tag-name markers) are
modelled from the specification and marked as such.
-/

namespace OSExec

/-- Server status constants reported by the provider.
Modelled from the spec: the client package constants for the BUILD, ACTIVE,
ERROR and DELETED states, treated as opaque strings by the executor. -/
def ServerStatusBuild : String := "BUILD"

/-- Status ACTIVE, see ServerStatusBuild. -/
def ServerStatusActive : String := "ACTIVE"

/-- Status ERROR, see ServerStatusBuild. -/
def ServerStatusError : String := "ERROR"

/-- Status DELETED, see ServerStatusBuild. -/
def ServerStatusDeleted : String := "DELETED"

/-- Tag-name marker for cluster identity.
Modelled from the spec: the cloudprovider package constant whose presence
inside a configured tag name marks the cluster-identity ownership key. -/
def ServerTagCluster : String := "kubernetes.io-cluster-"

/-- Tag-name marker for node role, see ServerTagCluster. -/
def ServerTagRole : String := "kubernetes.io-role-"

/-- Errors produced by the executor and its two capability clients.
Constructors mirror the ways the Go code builds errors: the two sentinel
errors of the executor package, a client 404, a plain fmt.Errorf message,
the unexpected-status error of the poller (fault detail attached when the
status is the error state), the poll-deadline error, a %w wrap (traversed
by errors.Is), a %v or %s flattening wrap (not traversed), and the combined
error built after a failed compensating delete, which wraps the rollback
error with %w and stringifies the original error. -/
inductive Err where
  | sentinelNotFound : Err
  | sentinelMultipleFound : Err
  | clientNotFound (s : String) : Err
  | msg (s : String) : Err
  | unexpectedStatus (status : String) (fault : Option String) : Err
  | timedOut : Err
  | wrap (context : String) (inner : Err) : Err
  | wrapv (context : String) (inner : Err) : Err
  | rollbackFailed (rollbackErr : Err) (original : Err) : Err
deriving Repr, DecidableEq

/-- Translation of errors.Is(err, ErrNotFound): true when the sentinel is
reachable through a chain of %w wraps. -/
def Err.isNotFound : Err → Bool
  | .sentinelNotFound => true
  | .wrap _ inner => inner.isNotFound
  | .rollbackFailed rollbackErr _ => rollbackErr.isNotFound
  | _ => false

/-- Translation of errors.Is(err, ErrMultipleFound). -/
def Err.isMultipleFound : Err → Bool
  | .sentinelMultipleFound => true
  | .wrap _ inner => inner.isMultipleFound
  | .rollbackFailed rollbackErr _ => rollbackErr.isMultipleFound
  | _ => false

/-- Translation of client.IsNotFoundError: recognises the raw 404 returned
by a capability client (the executor only applies it to unwrapped client
errors). -/
def Err.isClientNotFound : Err → Bool
  | .clientNotFound _ => true
  | _ => false

/-- A provider-side server record: opaque id, name, status, metadata map
and fault detail. Metadata is the key-value map whose keys carry the
ownership tags. -/
structure Server where
  id : String
  name : String
  status : String
  metadata : List (String × String)
  fault : String
deriving Repr, DecidableEq

/-- A provider-side port record with its owning network and its
allowed-address-pairs (modelled by the IP addresses they carry). -/
structure Port where
  id : String
  networkID : String
  allowedAddressPairs : List String
deriving Repr, DecidableEq

/-- A provider-side subnet record; the executor only checks existence. -/
structure Subnet where
  id : String
deriving Repr, DecidableEq

/-- The request passed to ports.Create: name, owning network, fixed-IP
subnets, allowed-address-pair IPs and security-group ids. -/
structure PortCreateOpts where
  name : String
  networkID : String
  fixedIPs : List String
  allowedAddressPairs : List String
  securityGroups : List String
deriving Repr, DecidableEq

/-- One entry of the configured network list: optional id, name and the
pod-network flag. -/
structure NetworkSpec where
  id : String
  name : String
  podNetwork : Bool
deriving Repr, DecidableEq

/-- One network attachment of a create request (servers.Network): network
UUID and optional pre-allocated port id (empty when none). -/
structure ServerNetwork where
  uuid : String
  port : String
deriving Repr, DecidableEq

/-- A block device of the boot-from-volume layer. -/
structure BlockDevice where
  uuid : String
  volumeSize : Int
  bootIndex : Nat
  deleteOnTermination : Bool
  sourceType : String
  destinationType : String
deriving Repr, DecidableEq

/-- The fully layered create request: the base fields of servers.CreateOpts
plus the key-pair, scheduler-hint and boot-from-volume layers, modelled as
optional fields set by the corresponding build steps. -/
structure ServerCreateOpts where
  name : String
  flavorRef : String
  imageRef : String
  networks : List ServerNetwork
  securityGroups : List String
  metadata : List (String × String)
  userData : String
  availabilityZone : String
  configDrive : Bool
  keyName : String
  schedulerGroup : Option String
  blockDevice : Option BlockDevice
deriving Repr, DecidableEq

/-- The per-request provider configuration (MachineProviderConfig.Spec),
restricted to the fields the executor reads. -/
structure MachineProviderSpec where
  region : String
  networkID : String
  subnetID : Option String
  networks : List NetworkSpec
  securityGroups : List String
  tags : List (String × String)
  keyName : String
  imageID : String
  imageName : String
  flavorName : String
  availabilityZone : String
  rootDiskSize : Int
  useConfigDrive : Bool
  serverGroupID : Option String
  podNetworkCidr : String

/-- The compute capability. getServer is indexed by the query instant so
that the poller can observe a changing provider; callers that query once
use instant 0. -/
structure ComputeClient where
  getServer : Nat → String → Except Err Server
  listServers : String → Except Err (List Server)
  deleteServer : String → Except Err Unit
  createServer : ServerCreateOpts → Except Err Server
  bootFromVolume : ServerCreateOpts → Except Err Server
  imageIDFromName : String → Except Err String
  flavorIDFromName : String → Except Err String

/-- The network capability. -/
structure NetworkClient where
  getSubnet : String → Except Err Subnet
  createPort : PortCreateOpts → Except Err Port
  updatePort : String → List String → Except Err Unit
  deletePortByID : String → Except Err Unit
  listPorts : String → Except Err (List Port)
  networkIDFromName : String → Except Err String
  groupIDFromName : String → Except Err String
  portIDFromName : String → Except Err String

/-- The executor: the two capability clients plus the configuration. -/
structure Executor where
  compute : ComputeClient
  network : NetworkClient
  config : MachineProviderSpec

/-- Helper of the repository outside src: true when the optional string is
nil or empty. -/
def isEmptyString : Option String → Bool
  | none => true
  | some s => s == ""

/-- Helper of the repository outside src: membership of a string in a
slice. -/
def strSliceContains (haystack : List String) (needle : String) : Bool :=
  haystack.contains needle

/-- Translation of strings.Contains: the pattern occurs as a contiguous
substring. -/
def strContains (s pattern : String) : Bool :=
  decide (pattern.toList <:+: s.toList)

/-- The scheme part of the identifier wire format.
Modelled from the spec: identifiers have the shape
openstack:///(region)/(instance-id). -/
def providerIDScheme : String := "openstack:///"

/-- EncodeProviderID, modelled from the spec: builds the wire identifier
openstack:///(region)/(instance-id) from the region and the raw server
id. -/
def EncodeProviderID (region : String) (serverID : String) : String :=
  providerIDScheme ++ region ++ "/" ++ serverID

/-- The slash separator of the identifier wire format. -/
def slash : Char := '/'

/-- DecodeProviderID, modelled from the spec: recovers the raw instance id
from a wire identifier, returning the empty string when the input does not
match the openstack:///(region)/(instance-id) shape (scheme present, both
the region part and the id part non-empty); the id part is the segment
after the last slash of the remainder. -/
def DecodeProviderID (providerID : String) : String :=
  if providerIDScheme.toList.isPrefixOf providerID.toList then
    let rest := providerID.toList.drop providerIDScheme.toList.length
    let revID := rest.reverse.takeWhile (fun c => c != slash)
    let revRegionPart := rest.reverse.dropWhile (fun c => c != slash)
    match revRegionPart with
    | [] => ""
    | _ :: revRegion =>
      if revRegion.isEmpty || revID.isEmpty then "" else String.mk revID.reverse
  else ""

/-- One step of the tag-key search loop: a key containing the cluster
marker overwrites the cluster slot, else a key containing the role marker
overwrites the role slot. -/
def searchOwnershipStep (acc : String × String) (kv : String × String) : String × String :=
  if strContains kv.fst ServerTagCluster then (kv.fst, acc.snd)
  else if strContains kv.fst ServerTagRole then (acc.fst, kv.fst)
  else acc

/-- The tag-key search loop shared verbatim by getMachineByProviderID,
getMachineByName and ListMachines: walk the configured tags and remember
the last key containing the cluster marker and, failing that branch, the
last key containing the role marker. The Go map iteration order is
modelled by the list order of the configured tags. -/
def searchOwnershipKeys (tags : List (String × String)) : String × String :=
  tags.foldl searchOwnershipStep ("", "")

/-- Translation of getMachineByProviderID (executor.go): decode the raw id
(empty decode is a malformed-identifier error, not a not-found), query the
server once, normalise a client 404 into the wrapped not-found sentinel,
and accept the server only when its metadata holds both ownership keys;
otherwise report the wrapped not-found sentinel. -/
def getMachineByProviderID (ex : Executor) (providerID : String) : Except Err Server :=
  let serverID := DecodeProviderID providerID
  if isEmptyString (some serverID) then
    .error (.msg ("could not parse serverID from providerID " ++ providerID))
  else
    match ex.compute.getServer 0 serverID with
    | .error e =>
      if e.isClientNotFound then
        .error (.wrap ("could not find server " ++ serverID) .sentinelNotFound)
      else .error e
    | .ok server =>
      let keys := searchOwnershipKeys ex.config.tags
      if (server.metadata.lookup keys.fst).isSome then
        if (server.metadata.lookup keys.snd).isSome then
          .ok server
        else .error (.wrap ("could not find server " ++ serverID) .sentinelNotFound)
      else .error (.wrap ("could not find server " ++ serverID) .sentinelNotFound)

/-- Translation of getMachineByName (executor.go): hard error when either
ownership key is unresolvable from the configured tags, then list servers
by name, keep those with matching name and both ownership keys in their
metadata, and demand exactly one survivor. -/
def getMachineByName (ex : Executor) (machineName : String) : Except Err Server :=
  let keys := searchOwnershipKeys ex.config.tags
  if keys.fst == "" || keys.snd == "" then
    .error (.msg ("getMachineByName operation can not proceed: cluster role tags are missing for machine " ++ machineName))
  else
    match ex.compute.listServers machineName with
    | .error e => .error e
    | .ok listedServers =>
      let matchingServers := listedServers.filter (fun server =>
        server.name == machineName
        && (server.metadata.lookup keys.fst).isSome
        && (server.metadata.lookup keys.snd).isSome)
      if matchingServers.length > 1 then
        .error (.wrap ("failed to find server " ++ machineName) .sentinelMultipleFound)
      else
        match matchingServers with
        | [] => .error (.wrap ("failed to find server " ++ machineName) .sentinelNotFound)
        | s :: _ => .ok s

/-- One tick of waitForStatus (the condition function handed to wait.Poll):
a client 404 counts as done when the target set holds the deleted
sentinel, a target status is done, an empty pending set or a pending
status continues, and any other status aborts with the unexpected-status
error, fault-enriched when the status is the error state. -/
def pollOnce (ex : Executor) (serverID : String) (pending target : List String)
    (tick : Nat) : Except Err Bool :=
  match ex.compute.getServer tick serverID with
  | .error e =>
    if e.isClientNotFound && strSliceContains target ServerStatusDeleted then .ok true
    else .error e
  | .ok current =>
    if strSliceContains target current.status then .ok true
    else if pending.length == 0 || strSliceContains pending current.status then .ok false
    else
      .error (.unexpectedStatus current.status
        (if current.status == ServerStatusError then some current.fault else none))

/-- The fixed-interval loop of wait.Poll with a one-second period: the fuel
is the remaining whole seconds of the budget, the tick is the index of the
next query. On success the returned number counts the queries made (the Go
original returns only the error); fuel exhaustion is the deadline error. -/
def pollLoop (ex : Executor) (serverID : String) (pending target : List String) :
    Nat → Nat → Except Err Nat
  | 0, _ => .error .timedOut
  | Nat.succ fuel, tick =>
    match pollOnce ex serverID pending target tick with
    | .error e => .error e
    | .ok true => .ok (tick + 1)
    | .ok false => pollLoop ex serverID pending target fuel (tick + 1)

/-- Translation of waitForStatus (executor.go): poll once per second up to
the budget of secs seconds. -/
def waitForStatus (ex : Executor) (serverID : String) (pending target : List String)
    (secs : Nat) : Except Err Nat :=
  pollLoop ex serverID pending target secs 0

/-- The security-group resolution loop of computeServerNetworks: resolve
each configured name in order, aborting on the first unresolvable name. -/
def resolveSecurityGroupIDs (net : NetworkClient) : List String → Except Err (List String)
  | [] => .ok []
  | g :: rest =>
    match net.groupIDFromName g with
    | .error e => .error e
    | .ok gid =>
      match resolveSecurityGroupIDs net rest with
      | .error e => .error e
      | .ok gids => .ok (gid :: gids)

/-- The network-list loop of computeServerNetworks: entries missing an id
have their name resolved, list order is preserved, no ports are
pre-allocated. -/
def resolveListedNetworks (net : NetworkClient) : List NetworkSpec → Except Err (List ServerNetwork)
  | [] => .ok []
  | n :: rest =>
    match (if isEmptyString (some n.id) then net.networkIDFromName n.name else .ok n.id) with
    | .error e => .error e
    | .ok resolvedNetworkID =>
      match resolveListedNetworks net rest with
      | .error e => .error e
      | .ok others => .ok ({ uuid := resolvedNetworkID, port := "" } :: others)

/-- Translation of computeServerNetworks (executor.go). The second
component instruments the port-create calls issued (the Go original
returns only the attachment list); a resolution failure therefore shows an
empty instrumentation list. Priority order as in the source: explicit
network and subnet pre-allocate a port carrying the pod CIDR and the
resolved security groups; explicit network alone attaches directly; else
the configured network list is resolved in order. -/
def computeServerNetworks (ex : Executor) (machineName : String) :
    Except Err (List ServerNetwork) × List PortCreateOpts :=
  let networkID := ex.config.networkID
  let subnetID := ex.config.subnetID
  if !(isEmptyString (some networkID)) && !(isEmptyString subnetID) then
    match ex.network.getSubnet (subnetID.getD "") with
    | .error e => (.error e, [])
    | .ok _ =>
      match resolveSecurityGroupIDs ex.network ex.config.securityGroups with
      | .error e => (.error e, [])
      | .ok securityGroupIDs =>
        let opts : PortCreateOpts :=
          { name := machineName
            networkID := networkID
            fixedIPs := [subnetID.getD ""]
            allowedAddressPairs := [ex.config.podNetworkCidr]
            securityGroups := securityGroupIDs }
        match ex.network.createPort opts with
        | .error e => (.error e, [opts])
        | .ok port => (.ok [{ uuid := networkID, port := port.id }], [opts])
  else if !(isEmptyString (some networkID)) then
    (.ok [{ uuid := networkID, port := "" }], [])
  else
    (resolveListedNetworks ex.network ex.config.networks, [])

/-- The pod-network id-set construction of computePodNetworkIDs: the
explicit network id alone when configured, otherwise the resolved ids of
exactly the pod-network-flagged entries of the configured list. -/
def resolvePodNetworksAux (net : NetworkClient) : List NetworkSpec → Except Err (List String)
  | [] => .ok []
  | n :: rest =>
    if n.podNetwork then
      match (if isEmptyString (some n.id) then net.networkIDFromName n.name else .ok n.id) with
      | .error e => .error e
      | .ok resolvedNetworkID =>
        match resolvePodNetworksAux net rest with
        | .error e => .error e
        | .ok others => .ok (resolvedNetworkID :: others)
    else resolvePodNetworksAux net rest

/-- The id-set head of computePodNetworkIDs (executor.go). -/
def resolvePodNetworkIDs (ex : Executor) : Except Err (List String) :=
  if !(isEmptyString (some ex.config.networkID)) then .ok [ex.config.networkID]
  else resolvePodNetworksAux ex.network ex.config.networks

/-- Translation of computePodNetworkIDs (executor.go): build the
pod-network id set, list the ports attached to the server, fail on an
empty port list, keep the ports whose network id is in the set, and fail
when none survives. -/
def computePodNetworkIDs (ex : Executor) (serverID : String) : Except Err (List Port) :=
  match resolvePodNetworkIDs ex with
  | .error e => .error e
  | .ok networkIDs =>
    match ex.network.listPorts serverID with
    | .error e => .error (.wrapv "failed to get ports" e)
    | .ok serverPorts =>
      if serverPorts.length == 0 then
        .error (.msg ("got an empty port list for server " ++ serverID))
      else
        let result := serverPorts.filter (fun port => networkIDs.contains port.networkID)
        if result.length == 0 then
          .error (.msg "no port candidates found for pod network")
        else .ok result

/-- Translation of deployServer (executor.go): resolve the image (explicit
id wins over name resolution) and the flavor, layer the create request
(base, key pair, scheduler hint, boot-from-volume) and submit through the
boot-from-volume call exactly when a positive root-disk size is
configured. -/
def deployServer (ex : Executor) (machineName userData : String)
    (nws : List ServerNetwork) : Except Err Server :=
  let imageRefE : Except Err String :=
    if ex.config.imageID != "" then .ok ex.config.imageID
    else
      match ex.compute.imageIDFromName ex.config.imageName with
      | .error e => .error (.wrapv ("error resolving image ID from image name " ++ ex.config.imageName) e)
      | .ok r => .ok r
  match imageRefE with
  | .error e => .error e
  | .ok imageRef =>
    match ex.compute.flavorIDFromName ex.config.flavorName with
    | .error e => .error (.wrapv ("error resolving flavor ID from flavor name " ++ ex.config.flavorName) e)
    | .ok flavorRef =>
      let base : ServerCreateOpts :=
        { name := machineName
          flavorRef := flavorRef
          imageRef := imageRef
          networks := nws
          securityGroups := ex.config.securityGroups
          metadata := ex.config.tags
          userData := userData
          availabilityZone := ex.config.availabilityZone
          configDrive := ex.config.useConfigDrive
          keyName := ""
          schedulerGroup := none
          blockDevice := none }
      let withKey := { base with keyName := ex.config.keyName }
      let withHints :=
        match ex.config.serverGroupID with
        | some g => { withKey with schedulerGroup := some g }
        | none => withKey
      if ex.config.rootDiskSize > 0 then
        let bd : BlockDevice :=
          { uuid := imageRef
            volumeSize := ex.config.rootDiskSize
            bootIndex := 0
            deleteOnTermination := true
            sourceType := "image"
            destinationType := "volume" }
        ex.compute.bootFromVolume { withHints with blockDevice := some bd }
      else ex.compute.createServer withHints

/-- The update loop of patchServerPortsForPodNetwork: overwrite each
filtered port with the pod CIDR as its sole allowed address pair, aborting
on the first update failure. -/
def updatePodPorts (ex : Executor) : List Port → Except Err Unit
  | [] => .ok ()
  | p :: rest =>
    match ex.network.updatePort p.id [ex.config.podNetworkCidr] with
    | .error e => .error (.wrapv ("failed to update allowed address pair for port " ++ p.id) e)
    | .ok _ => updatePodPorts ex rest

/-- Translation of patchServerPortsForPodNetwork (executor.go). -/
def patchServerPortsForPodNetwork (ex : Executor) (serverID : String) : Except Err Unit :=
  match computePodNetworkIDs ex serverID with
  | .error e => .error e
  | .ok podNetworkPorts => updatePodPorts ex podNetworkPorts

/-- Translation of deletePort (executor.go): a 404 from the name lookup is
absorbed as success, other lookup failures are flattened, and the found
port is deleted. -/
def deletePort (ex : Executor) (machineName : String) : Except Err Unit :=
  match ex.network.portIDFromName machineName with
  | .error e =>
    if e.isClientNotFound then .ok ()
    else .error (.wrapv ("error deleting port with name " ++ machineName) e)
  | .ok portID =>
    match ex.network.deletePortByID portID with
    | .error e => .error e
    | .ok _ => .ok ()

/-- Translation of DeleteMachine (executor.go): locate by provider id when
one is supplied, else by name; absorb a not-found lookup as idempotent
success; delete, wait for the deleted state with a 300 second budget and
no pending restriction, and clean up the named port exactly when a subnet
id is explicitly configured. -/
def deleteMachine (ex : Executor) (machineName providerID : String) : Except Err Unit :=
  let lookup :=
    if isEmptyString (some providerID) then getMachineByName ex machineName
    else getMachineByProviderID ex providerID
  match lookup with
  | .error e => if e.isNotFound then .ok () else .error e
  | .ok server =>
    match ex.compute.deleteServer server.id with
    | .error e => .error e
    | .ok _ =>
      match waitForStatus ex server.id [] [ServerStatusDeleted] 300 with
      | .error e => .error (.wrapv ("error while waiting for server " ++ server.id ++ " to be deleted") e)
      | .ok _ =>
        if !(isEmptyString ex.config.subnetID) then deletePort ex machineName
        else .ok ()

/-- Translation of CreateMachine (executor.go). The second component
instruments the number of compensating delete attempts issued by the
deleteOnFail closure (the Go original returns only the identifier and the
error). A post-submission failure triggers one compensating delete; a
failed compensating delete yields the combined rollback error carrying
both failures, a successful one returns the original error unchanged. -/
def createMachine (ex : Executor) (machineName userData : String) :
    Except Err String × Nat :=
  match (computeServerNetworks ex machineName).fst with
  | .error e => (.error (.wrap "failed to resolve server networks" e), 0)
  | .ok serverNetworks =>
    match deployServer ex machineName userData serverNetworks with
    | .error e => (.error (.wrap ("failed to deploy server for machine " ++ machineName) e), 0)
    | .ok server =>
      let providerID := EncodeProviderID ex.config.region server.id
      match waitForStatus ex server.id [ServerStatusBuild] [ServerStatusActive] 600 with
      | .error e =>
        let orig := Err.wrap ("error waiting for server " ++ server.id ++ " to reach target status") e
        match deleteMachine ex machineName providerID with
        | .error errIn => (.error (.rollbackFailed errIn orig), 1)
        | .ok _ => (.error orig, 1)
      | .ok _ =>
        match patchServerPortsForPodNetwork ex server.id with
        | .error e =>
          let orig := Err.wrapv ("failed to patch server " ++ server.id ++ " ports") e
          match deleteMachine ex machineName providerID with
          | .error errIn => (.error (.rollbackFailed errIn orig), 1)
          | .ok _ => (.error orig, 1)
        | .ok _ => (.ok providerID, 0)

/-- The verification loop of verifyServerPortsForPodNetwork: every filtered
port must carry the pod CIDR among its allowed address pairs. -/
def verifyPodPorts (cidr serverID : String) : List Port → Except Err Unit
  | [] => .ok ()
  | p :: rest =>
    if p.allowedAddressPairs.contains cidr then verifyPodPorts cidr serverID rest
    else .error (.msg ("port " ++ p.id ++ " of server " ++ serverID ++ " is not configured for pod network, but it should"))

/-- Translation of verifyServerPortsForPodNetwork (executor.go). -/
def verifyServerPortsForPodNetwork (ex : Executor) (serverID : String) : Except Err Unit :=
  match computePodNetworkIDs ex serverID with
  | .error e => .error e
  | .ok podNetworkPorts => verifyPodPorts ex.config.podNetworkCidr serverID podNetworkPorts

/-- Translation of GetMachineStatus (executor.go): locate by name, verify
the pod-network ports, return the encoded identifier. -/
def getMachineStatus (ex : Executor) (machineName : String) : Except Err String :=
  match getMachineByName ex machineName with
  | .error e => .error e
  | .ok server =>
    match verifyServerPortsForPodNetwork ex server.id with
    | .error e => .error e
    | .ok _ => .ok (EncodeProviderID ex.config.region server.id)

/-- Translation of ListMachines (executor.go): hard error when either
ownership key is unresolvable, then list every server and keep the pairs
(encoded identifier, name) of those carrying both ownership keys. The Go
map is modelled as the association list in listing order. -/
def listMachines (ex : Executor) : Except Err (List (String × String)) :=
  let keys := searchOwnershipKeys ex.config.tags
  if keys.fst == "" || keys.snd == "" then
    .error (.msg "operation can not proceed: cluster role tags are missing")
  else
    match ex.compute.listServers "" with
    | .error e => .error e
    | .ok listed =>
      .ok (listed.filterMap (fun server =>
        if (server.metadata.lookup keys.fst).isSome
            && (server.metadata.lookup keys.snd).isSome then
          some (EncodeProviderID ex.config.region server.id, server.name)
        else none))

/-- A compute client whose every call fails; concrete executors override
the calls they exercise. -/
def stubCompute : ComputeClient :=
  { getServer := fun _ _ => .error (.msg "stub")
    listServers := fun _ => .error (.msg "stub")
    deleteServer := fun _ => .error (.msg "stub")
    createServer := fun _ => .error (.msg "stub")
    bootFromVolume := fun _ => .error (.msg "stub")
    imageIDFromName := fun _ => .error (.msg "stub")
    flavorIDFromName := fun _ => .error (.msg "stub") }

/-- A network client whose every call fails; see stubCompute. -/
def stubNetwork : NetworkClient :=
  { getSubnet := fun _ => .error (.msg "stub")
    createPort := fun _ => .error (.msg "stub")
    updatePort := fun _ _ => .error (.msg "stub")
    deletePortByID := fun _ => .error (.msg "stub")
    listPorts := fun _ => .error (.msg "stub")
    networkIDFromName := fun _ => .error (.msg "stub")
    groupIDFromName := fun _ => .error (.msg "stub")
    portIDFromName := fun _ => .error (.msg "stub") }

/-- A configuration with every field empty; concrete executors override the
fields they exercise. -/
def stubConfig : MachineProviderSpec :=
  { region := "r"
    networkID := ""
    subnetID := none
    networks := []
    securityGroups := []
    tags := []
    keyName := ""
    imageID := ""
    imageName := ""
    flavorName := ""
    availabilityZone := ""
    rootDiskSize := 0
    useConfigDrive := false
    serverGroupID := none
    podNetworkCidr := "" }

/-- A scripted server record carrying the given status. -/
def scriptedServer (st : String) : Server :=
  { id := "srv", name := "m", status := st, metadata := [], fault := "boom" }

/-- Scripted query: BUILD on the first two queries, ACTIVE afterwards. -/
def pollScriptA (tick : Nat) (_ : String) : Except Err Server :=
  if tick < 2 then .ok (scriptedServer ServerStatusBuild)
  else .ok (scriptedServer ServerStatusActive)

/-- Scripted query: BUILD on the first query, ERROR afterwards. -/
def pollScriptB (tick : Nat) (_ : String) : Except Err Server :=
  if tick < 1 then .ok (scriptedServer ServerStatusBuild)
  else .ok (scriptedServer ServerStatusError)

/-- Poller scenario: the provider reports BUILD on the first two queries
and ACTIVE afterwards. -/
def exPollA : Executor :=
  { compute := { stubCompute with getServer := pollScriptA }
    network := stubNetwork
    config := stubConfig }

/-- Poller scenario: the provider reports BUILD on the first query and
ERROR afterwards. -/
def exPollB : Executor :=
  { compute := { stubCompute with getServer := pollScriptB }
    network := stubNetwork
    config := stubConfig }

/-- Poller scenario: every query reports a client 404. -/
def exPollC : Executor :=
  { compute := { stubCompute with getServer := fun _ _ => .error (.clientNotFound "404") }
    network := stubNetwork
    config := stubConfig }

/-- Characters strictly before an excluded head are kept whole by takeWhile
up to the first occurrence of the slash separator. -/
theorem takeWhile_append_slash (l t : List Char) (h : ∀ c ∈ l, (c != slash) = true) :
    (l ++ slash :: t).takeWhile (fun c => c != slash) = l := by
  induction l with
  | nil => simp [List.takeWhile_cons]
  | cons a l ih =>
    have ha : (a != slash) = true := h a (by simp)
    simp only [List.cons_append, List.takeWhile_cons, ha, if_true]
    rw [ih (fun c hc => h c (by simp [hc]))]

/-- Companion of takeWhile_append_slash for dropWhile. -/
theorem dropWhile_append_slash (l t : List Char) (h : ∀ c ∈ l, (c != slash) = true) :
    (l ++ slash :: t).dropWhile (fun c => c != slash) = slash :: t := by
  induction l with
  | nil => simp [List.dropWhile_cons]
  | cons a l ih =>
    have ha : (a != slash) = true := h a (by simp)
    simp only [List.cons_append, List.dropWhile_cons, ha, if_true]
    exact ih (fun c hc => h c (by simp [hc]))

/-- A string with an empty character list is the empty string. -/
theorem string_toList_eq_nil {s : String} (h : s.toList = []) : s = "" := by
  cases s with
  | mk data =>
    cases data with
    | nil => rfl
    | cons a l => simp [String.toList] at h

/-- C3: the status poller on scripted sequences. With target ACTIVE and
pending BUILD, the script BUILD, BUILD, ACTIVE succeeds after the third
query; the script BUILD, ERROR fails with the fault-enriched
unexpected-status error (already within a two-second budget, hence before
any ACTIVE report); and a query that always reports a client 404 succeeds
on the first query when the target set holds the deleted sentinel. -/
theorem c3_waitForStatus_scenarios :
    waitForStatus exPollA "srv" [ServerStatusBuild] [ServerStatusActive] 600 = .ok 3
    ∧ waitForStatus exPollB "srv" [ServerStatusBuild] [ServerStatusActive] 600 =
        .error (.unexpectedStatus ServerStatusError (some "boom"))
    ∧ waitForStatus exPollB "srv" [ServerStatusBuild] [ServerStatusActive] 2 =
        .error (.unexpectedStatus ServerStatusError (some "boom"))
    ∧ waitForStatus exPollC "srv" [] [ServerStatusDeleted] 300 = .ok 1 :=
  ⟨rfl, rfl, rfl, rfl⟩

/-- C9 counterexample: the encoding is not losslessly decodable for every
pair of non-empty strings; an instance id containing the separator is
mangled by the decode. -/
theorem c9_roundtrip_counterexample :
    DecodeProviderID (EncodeProviderID "r" "a/b") = "b"
    ∧ DecodeProviderID (EncodeProviderID "r" "a/b") ≠ "a/b" := by decide

/-- C9 amended: the codec round trip holds for every non-empty region and
every non-empty instance id free of the slash separator, and a string not
carrying the scheme decodes to the empty raw id. -/
theorem c9_roundtrip (region serverID : String)
    (hr : region ≠ "") (hid : serverID ≠ "")
    (hslash : slash ∉ serverID.toList) :
    DecodeProviderID (EncodeProviderID region serverID) = serverID
    ∧ ∀ s : String, providerIDScheme.toList.isPrefixOf s.toList = false →
        DecodeProviderID s = "" := by
  constructor
  · have hdata : (EncodeProviderID region serverID).toList
        = providerIDScheme.toList ++ (region.toList ++ slash :: serverID.toList) := by
      simp [EncodeProviderID, String.toList, String.data_append, slash]
    have hrev : (region.toList ++ slash :: serverID.toList).reverse
        = serverID.toList.reverse ++ slash :: region.toList.reverse := by
      simp [List.reverse_append]
    have hall : ∀ c ∈ serverID.toList.reverse, (c != slash) = true := by
      intro c hc
      rw [List.mem_reverse] at hc
      have : c ≠ slash := fun hh => hslash (hh ▸ hc)
      simpa using this
    have hidl : serverID.toList ≠ [] := fun hh => hid (string_toList_eq_nil hh)
    have hrl : region.toList ≠ [] := fun hh => hr (string_toList_eq_nil hh)
    unfold DecodeProviderID
    rw [hdata]
    rw [if_pos ?hpre]
    case hpre =>
      rw [List.isPrefixOf_iff_prefix]
      exact List.prefix_append _ _
    simp only [List.drop_left, hrev]
    rw [takeWhile_append_slash _ _ hall, dropWhile_append_slash _ _ hall]
    have hki : serverID.toList.reverse.isEmpty = false := by
      simpa [List.isEmpty_iff] using hidl
    have hkr : region.toList.reverse.isEmpty = false := by
      simpa [List.isEmpty_iff] using hrl
    simp only [hki, hkr, Bool.or_self, Bool.false_or, if_neg Bool.false_ne_true]
    rw [List.reverse_reverse]
    rfl
  · intro s hs
    unfold DecodeProviderID
    rw [hs]
    simp

/-- C9 witness: a concrete round trip through the amended theorem. -/
theorem c9_roundtrip_witness :
    DecodeProviderID (EncodeProviderID "eu-de-1" "abc-123") = "abc-123" :=
  (c9_roundtrip "eu-de-1" "abc-123" (by decide) (by decide) (by decide)).1

/-- C1: name lookup with resolvable ownership keys lists the servers of
that name and filters them by name match plus presence of both ownership
keys; zero survivors is the wrapped not-found sentinel, two or more is the
wrapped multiple-found sentinel, and a sole survivor is returned. -/
theorem c1_getMachineByName_exactly_one (ex : Executor) (machineName : String)
    (listed matching : List Server)
    (hkc : ((searchOwnershipKeys ex.config.tags).fst == "") = false)
    (hkr : ((searchOwnershipKeys ex.config.tags).snd == "") = false)
    (hlist : ex.compute.listServers machineName = .ok listed)
    (hm : matching = listed.filter (fun server =>
        server.name == machineName
        && (server.metadata.lookup (searchOwnershipKeys ex.config.tags).fst).isSome
        && (server.metadata.lookup (searchOwnershipKeys ex.config.tags).snd).isSome)) :
    (matching = [] → getMachineByName ex machineName =
        .error (.wrap ("failed to find server " ++ machineName) .sentinelNotFound))
    ∧ (2 ≤ matching.length → getMachineByName ex machineName =
        .error (.wrap ("failed to find server " ++ machineName) .sentinelMultipleFound))
    ∧ (∀ s, matching = [s] → getMachineByName ex machineName = .ok s) := by
  simp only [getMachineByName, hkc, hkr, Bool.or_self, Bool.false_eq_true, if_false, hlist,
    ← hm]
  refine ⟨fun h0 => ?_, fun h2 => ?_, fun s hs => ?_⟩
  · subst h0
    simp
  · rw [if_pos (by omega)]
  · subst hs
    simp

/-- C1 configuration: both ownership keys resolvable. -/
def tagsC1 : List (String × String) :=
  [("kubernetes.io-cluster-test", "1"), ("kubernetes.io-role-node", "1")]

/-- C1 server: named m with both ownership keys in its metadata. -/
def srvC1 : Server :=
  { id := "id-1", name := "m", status := "ACTIVE", metadata := tagsC1, fault := "" }

/-- C1 executor: listing by name returns exactly srvC1. -/
def exC1 : Executor :=
  { compute := { stubCompute with listServers := fun _ => .ok [srvC1] }
    network := stubNetwork
    config := { stubConfig with tags := tagsC1 } }

/-- C1 witness: the sole tag-matching server is returned. -/
theorem c1_witness : getMachineByName exC1 "m" = .ok srvC1 :=
  (c1_getMachineByName_exactly_one exC1 "m" [srvC1] [srvC1]
    (by decide) (by decide) rfl (by decide)).2.2 srvC1 rfl

/-- C2: DeleteMachine is idempotent with respect to absence; whenever the
lookup chosen by the supplied identifier (name lookup for an empty
identifier, identifier lookup otherwise) produces an error carrying the
not-found sentinel, the delete reports success. -/
theorem c2_deleteMachine_absorbs_notFound (ex : Executor) (machineName providerID : String)
    (e : Err)
    (hlookup : (if isEmptyString (some providerID) then getMachineByName ex machineName
        else getMachineByProviderID ex providerID) = .error e)
    (hnf : e.isNotFound = true) :
    deleteMachine ex machineName providerID = .ok () := by
  simp only [deleteMachine]
  rw [hlookup]
  simp [hnf]

/-- C2 executor: tags resolvable, but the name listing is empty. -/
def exC2 : Executor :=
  { compute := { stubCompute with listServers := fun _ => .ok [] }
    network := stubNetwork
    config := { stubConfig with tags := tagsC1 } }

/-- C2 witness: deleting an absent machine by name succeeds. -/
theorem c2_witness : deleteMachine exC2 "m" "" = .ok () :=
  c2_deleteMachine_absorbs_notFound exC2 "m" ""
    (.wrap ("failed to find server " ++ "m") .sentinelNotFound) rfl (by decide)

/-- C10: a non-empty identifier whose decode yields an empty raw id makes
DeleteMachine fail with the malformed-identifier error, which does not
carry the not-found sentinel and is therefore not absorbed. -/
theorem c10_deleteMachine_malformed_id (ex : Executor) (machineName providerID : String)
    (hne : (providerID == "") = false)
    (hdec : DecodeProviderID providerID = "") :
    deleteMachine ex machineName providerID =
      .error (.msg ("could not parse serverID from providerID " ++ providerID)) := by
  simp only [deleteMachine, getMachineByProviderID, isEmptyString, hne, hdec,
    Bool.false_eq_true, if_false]
  simp [Err.isNotFound]

/-- C10 witness: a malformed identifier is rejected, not absorbed. -/
theorem c10_witness :
    deleteMachine exC2 "m" "garbage" =
      .error (.msg ("could not parse serverID from providerID " ++ "garbage")) :=
  c10_deleteMachine_malformed_id exC2 "m" "garbage" (by decide) (by decide)

/-- A single unresolvable security-group name makes the whole resolution
loop fail. -/
theorem resolveSecurityGroupIDs_error (net : NetworkClient) (groups : List String)
    (g : String) (e : Err) (hg : g ∈ groups) (he : net.groupIDFromName g = .error e) :
    ∃ e2, resolveSecurityGroupIDs net groups = .error e2 := by
  induction groups with
  | nil => cases hg
  | cons a rest ih =>
    rcases List.mem_cons.mp hg with hga | hgr
    · subst hga
      refine ⟨e, ?_⟩
      simp only [resolveSecurityGroupIDs, he]
    · cases ha : net.groupIDFromName a with
      | error ea =>
        refine ⟨ea, ?_⟩
        simp only [resolveSecurityGroupIDs, ha]
      | ok gid =>
        obtain ⟨e2, h2⟩ := ih hgr
        refine ⟨e2, ?_⟩
        simp only [resolveSecurityGroupIDs, ha, h2]

/-- C4: with an explicit network id and an explicit subnet id, a missing
subnet aborts with no port created, an unresolvable security-group name
aborts with no port created, and otherwise exactly one attachment of the
network id with a freshly created port is returned, the port request
carrying the subnet as its fixed IP, the pod CIDR as its allowed address
pair and the resolved group ids as its security groups. -/
theorem c4_computeServerNetworks_explicit_subnet (ex : Executor) (machineName snID : String)
    (hnn : (ex.config.networkID == "") = false)
    (hsub : ex.config.subnetID = some snID)
    (hsne : (snID == "") = false) :
    (∀ e, ex.network.getSubnet snID = .error e →
        computeServerNetworks ex machineName = (.error e, []))
    ∧ (∀ sub g e, ex.network.getSubnet snID = .ok sub →
        g ∈ ex.config.securityGroups → ex.network.groupIDFromName g = .error e →
        ∃ e2, computeServerNetworks ex machineName = (.error e2, []))
    ∧ (∀ sub gids p, ex.network.getSubnet snID = .ok sub →
        resolveSecurityGroupIDs ex.network ex.config.securityGroups = .ok gids →
        ex.network.createPort
          { name := machineName
            networkID := ex.config.networkID
            fixedIPs := [snID]
            allowedAddressPairs := [ex.config.podNetworkCidr]
            securityGroups := gids } = .ok p →
        computeServerNetworks ex machineName =
          (.ok [{ uuid := ex.config.networkID, port := p.id }],
           [{ name := machineName
              networkID := ex.config.networkID
              fixedIPs := [snID]
              allowedAddressPairs := [ex.config.podNetworkCidr]
              securityGroups := gids }])) := by
  have hcond : (!(isEmptyString (some ex.config.networkID))
      && !(isEmptyString (some snID))) = true := by
    simp [isEmptyString, hnn, hsne]
  refine ⟨fun e he => ?_, fun sub g e hsubok hg he => ?_, fun sub gids p hsubok hgids hport => ?_⟩
  · simp only [computeServerNetworks, hsub, Option.getD_some, he, hcond, if_true]
  · obtain ⟨e2, h2⟩ := resolveSecurityGroupIDs_error ex.network ex.config.securityGroups g e hg he
    refine ⟨e2, ?_⟩
    simp only [computeServerNetworks, hsub, Option.getD_some, hsubok, h2, hcond, if_true]
  · simp only [computeServerNetworks, hsub, Option.getD_some, hsubok, hgids, hport, hcond,
      if_true]

/-- C4 network client: subnet S exists, two groups resolve, a port is
allocated with id p1. -/
def netC4 : NetworkClient :=
  { stubNetwork with
    getSubnet := fun s => if s == "S" then .ok { id := "S" } else .error (.clientNotFound "404")
    groupIDFromName := fun g =>
      if g == "g1" then .ok "gid1"
      else if g == "g2" then .ok "gid2"
      else .error (.clientNotFound "404")
    createPort := fun opts => .ok { id := "p1", networkID := opts.networkID, allowedAddressPairs := opts.allowedAddressPairs } }

/-- C4 executor: explicit network N, explicit subnet S, two security
groups, a pod CIDR. -/
def exC4 : Executor :=
  { compute := stubCompute
    network := netC4
    config := { stubConfig with
      networkID := "N"
      subnetID := some "S"
      securityGroups := ["g1", "g2"]
      podNetworkCidr := "10.0.0.0/16" } }

/-- C4 witness: exactly one attachment of network N and the fresh port,
whose request carries the subnet, the pod CIDR and both resolved group
ids. -/
theorem c4_witness :
    computeServerNetworks exC4 "machine-1" =
      (.ok [{ uuid := "N", port := "p1" }],
       [{ name := "machine-1"
          networkID := "N"
          fixedIPs := ["S"]
          allowedAddressPairs := ["10.0.0.0/16"]
          securityGroups := ["gid1", "gid2"] }]) :=
  (c4_computeServerNetworks_explicit_subnet exC4 "machine-1" "S" (by decide) rfl
      (by decide)).2.2 { id := "S" } ["gid1", "gid2"]
    { id := "p1", networkID := "N", allowedAddressPairs := ["10.0.0.0/16"] }
    rfl rfl rfl

/-- C8: once the instance is located, deleted and drained to the deleted
state, the remaining work is exactly the named-port cleanup when a subnet
id is configured and nothing otherwise; and the port cleanup absorbs a 404
from the port-name lookup as success. -/
theorem c8_deleteMachine_port_cleanup (ex : Executor) (machineName providerID : String)
    (server : Server) (k : Nat)
    (hlookup : (if isEmptyString (some providerID) then getMachineByName ex machineName
        else getMachineByProviderID ex providerID) = .ok server)
    (hdel : ex.compute.deleteServer server.id = .ok ())
    (hwait : waitForStatus ex server.id [] [ServerStatusDeleted] 300 = .ok k) :
    deleteMachine ex machineName providerID =
      (if !(isEmptyString ex.config.subnetID) then deletePort ex machineName else .ok ())
    ∧ (∀ e, ex.network.portIDFromName machineName = .error e → e.isClientNotFound = true →
        deletePort ex machineName = .ok ()) := by
  constructor
  · simp only [deleteMachine]
    rw [hlookup]
    simp only [hdel, hwait]
  · intro e he hcnf
    simp only [deletePort, he, hcnf, if_true]

/-- C8 executor: named lookup finds srvC1, the delete succeeds, the server
is gone on the first poll, a subnet is configured, and the named port is
already absent. -/
def exC8 : Executor :=
  { compute := { stubCompute with
      listServers := fun _ => .ok [srvC1]
      deleteServer := fun _ => .ok ()
      getServer := fun _ _ => .error (.clientNotFound "404") }
    network := { stubNetwork with
      portIDFromName := fun _ => .error (.clientNotFound "404") }
    config := { stubConfig with tags := tagsC1, subnetID := some "S" } }

/-- C8 witness: a full delete with configured subnet and already absent
port reports success. -/
theorem c8_witness : deleteMachine exC8 "m" "" = .ok () :=
  ((c8_deleteMachine_port_cleanup exC8 "m" "" srvC1 1 rfl rfl rfl).1).trans rfl

/-- Entries without the pod-network flag do not take part in the
pod-network id-set resolution. -/
theorem resolvePodNetworksAux_filter (net : NetworkClient) (l : List NetworkSpec) :
    resolvePodNetworksAux net l
      = resolvePodNetworksAux net (l.filter (fun n => n.podNetwork)) := by
  induction l with
  | nil => rfl
  | cons n rest ih =>
    by_cases h : n.podNetwork
    · simp only [resolvePodNetworksAux, List.filter_cons, h, if_true, ih]
    · simp only [resolvePodNetworksAux, List.filter_cons, h, if_false, ih, Bool.false_eq_true]

/-- C6 amended: pod-network discovery filters the attached ports by the id
set made of the single explicit network id when one is configured and
otherwise of the ids resolved from exactly the pod-network-flagged entries
of the configured network list; an empty port list and an empty filtered
list are distinct failures, and otherwise the filtered ports are
returned. -/
theorem c6_computePodNetworkIDs_filters (ex : Executor) (serverID : String)
    (nids : List String) (ps : List Port)
    (hn : resolvePodNetworkIDs ex = .ok nids)
    (hp : ex.network.listPorts serverID = .ok ps) :
    ((ex.config.networkID == "") = false → nids = [ex.config.networkID])
    ∧ ((ex.config.networkID == "") = true →
        resolvePodNetworksAux ex.network (ex.config.networks.filter (fun n => n.podNetwork))
          = .ok nids)
    ∧ (ps = [] → computePodNetworkIDs ex serverID =
        .error (.msg ("got an empty port list for server " ++ serverID)))
    ∧ (ps ≠ [] → ps.filter (fun port => nids.contains port.networkID) = [] →
        computePodNetworkIDs ex serverID =
          .error (.msg "no port candidates found for pod network"))
    ∧ (ps.filter (fun port => nids.contains port.networkID) ≠ [] →
        computePodNetworkIDs ex serverID =
          .ok (ps.filter (fun port => nids.contains port.networkID))) := by
  refine ⟨fun hne => ?_, fun heq => ?_, fun h0 => ?_, fun hne hf => ?_, fun hf => ?_⟩
  · rw [resolvePodNetworkIDs] at hn
    simp only [isEmptyString, hne, Bool.not_false, if_true] at hn
    exact (Except.ok.inj hn).symm
  · rw [resolvePodNetworkIDs] at hn
    simp only [isEmptyString, heq, Bool.not_true, Bool.false_eq_true, if_false] at hn
    rw [← resolvePodNetworksAux_filter]
    exact hn
  · subst h0
    simp only [computePodNetworkIDs, hn, hp, List.length_nil]
    rfl
  · have hlen : (ps.length == 0) = false := by
      simpa [List.length_eq_zero] using hne
    simp only [computePodNetworkIDs, hn, hp, hlen, Bool.false_eq_true, if_false]
    rw [hf]
    rfl
  · have hne : ps ≠ [] := by
      intro h0
      exact hf (by simp [h0])
    have hlen : (ps.length == 0) = false := by
      simpa [List.length_eq_zero] using hne
    have hflen : ((ps.filter (fun port => nids.contains port.networkID)).length == 0) = false := by
      simpa [List.length_eq_zero] using hf
    simp only [computePodNetworkIDs, hn, hp, hlen, hflen, Bool.false_eq_true, if_false]

/-- C6 counterexample configuration: one configured network entry, not
flagged for the pod network. -/
def exC6 : Executor :=
  { compute := stubCompute
    network := { stubNetwork with
      listPorts := fun _ => .ok [{ id := "p1", networkID := "n1", allowedAddressPairs := [] }] }
    config := { stubConfig with
      networks := [{ id := "n1", name := "netname", podNetwork := false }] } }

/-- C6 counterexample: instance creation would attach network n1 (the
resolved configured list), the instance has exactly one port and it sits
on n1, yet pod-network discovery fails, because the discovery set keeps
only pod-network-flagged entries — contradicting the claim that the
filter set is the ids resolved from the configured network list. -/
theorem c6_counterexample :
    resolveListedNetworks exC6.network exC6.config.networks
        = .ok [{ uuid := "n1", port := "" }]
    ∧ exC6.network.listPorts "srv"
        = .ok [{ id := "p1", networkID := "n1", allowedAddressPairs := [] }]
    ∧ computePodNetworkIDs exC6 "srv"
        = .error (.msg "no port candidates found for pod network") :=
  ⟨rfl, rfl, rfl⟩

/-- C6 witness configuration: a pod-flagged entry n1 and an unflagged
entry n2, with one attached port on each. -/
def exC6w : Executor :=
  { compute := stubCompute
    network := { stubNetwork with
      listPorts := fun _ => .ok
        [{ id := "p1", networkID := "n1", allowedAddressPairs := [] },
         { id := "p2", networkID := "n2", allowedAddressPairs := [] }] }
    config := { stubConfig with
      networks := [{ id := "n1", name := "x", podNetwork := true },
                   { id := "n2", name := "y", podNetwork := false }] } }

/-- C6 witness: only the port on the pod-flagged network survives the
discovery filter. -/
theorem c6_witness :
    computePodNetworkIDs exC6w "srv"
      = .ok [{ id := "p1", networkID := "n1", allowedAddressPairs := [] }] := by
  have h := c6_computePodNetworkIDs_filters exC6w "srv" ["n1"]
    [{ id := "p1", networkID := "n1", allowedAddressPairs := [] },
     { id := "p2", networkID := "n2", allowedAddressPairs := [] }] rfl rfl
  exact (h.2.2.2.2 (by decide)).trans (by rfl)

/-- The ownership test written once: both searched keys occur in the
metadata map. -/
def hasOwnershipTags (tags md : List (String × String)) : Bool :=
  (md.lookup (searchOwnershipKeys tags).fst).isSome
    && (md.lookup (searchOwnershipKeys tags).snd).isSome

/-- The cluster slot of the tag-key fold is either untouched or a key of
the walked list containing the cluster marker. -/
theorem searchFold_fst (tags : List (String × String)) (acc : String × String) :
    (tags.foldl searchOwnershipStep acc).fst = acc.fst
    ∨ ((∃ kv ∈ tags, kv.fst = (tags.foldl searchOwnershipStep acc).fst)
        ∧ strContains (tags.foldl searchOwnershipStep acc).fst ServerTagCluster = true) := by
  induction tags generalizing acc with
  | nil => exact Or.inl rfl
  | cons kv rest ih =>
    simp only [List.foldl_cons]
    rcases ih (searchOwnershipStep acc kv) with h | ⟨⟨kv2, hkv2, hfst⟩, hc⟩
    · rw [h]
      by_cases hc : strContains kv.fst ServerTagCluster
      · refine Or.inr ⟨⟨kv, by simp, ?_⟩, ?_⟩
        · simp [searchOwnershipStep, hc]
        · simp [searchOwnershipStep, hc]
      · by_cases hr : strContains kv.fst ServerTagRole
        · refine Or.inl ?_
          simp [searchOwnershipStep, hc, hr]
        · refine Or.inl ?_
          simp [searchOwnershipStep, hc, hr]
    · exact Or.inr ⟨⟨kv2, by simp [hkv2], hfst⟩, hc⟩

/-- The role slot of the tag-key fold is either untouched or a key of the
walked list containing the role marker. -/
theorem searchFold_snd (tags : List (String × String)) (acc : String × String) :
    (tags.foldl searchOwnershipStep acc).snd = acc.snd
    ∨ ((∃ kv ∈ tags, kv.fst = (tags.foldl searchOwnershipStep acc).snd)
        ∧ strContains (tags.foldl searchOwnershipStep acc).snd ServerTagRole = true) := by
  induction tags generalizing acc with
  | nil => exact Or.inl rfl
  | cons kv rest ih =>
    simp only [List.foldl_cons]
    rcases ih (searchOwnershipStep acc kv) with h | ⟨⟨kv2, hkv2, hsnd⟩, hc⟩
    · rw [h]
      by_cases hc : strContains kv.fst ServerTagCluster
      · refine Or.inl ?_
        simp [searchOwnershipStep, hc]
      · by_cases hr : strContains kv.fst ServerTagRole
        · refine Or.inr ⟨⟨kv, by simp, ?_⟩, ?_⟩
          · simp [searchOwnershipStep, hc, hr]
          · simp [searchOwnershipStep, hc, hr]
        · refine Or.inl ?_
          simp [searchOwnershipStep, hc, hr]
    · exact Or.inr ⟨⟨kv2, by simp [hkv2], hsnd⟩, hc⟩

/-- C7 amended: each searched ownership key is, when resolvable, a
configured tag name containing the corresponding marker as a substring
(containment match of the key name, not a value match); and the same
two-key presence test decides acceptance in identifier lookup, drives the
filter of name lookup, and selects the enumeration result. -/
theorem c7_ownership_two_key_test (tags : List (String × String)) :
    ((searchOwnershipKeys tags).fst ≠ "" →
      (∃ kv ∈ tags, kv.fst = (searchOwnershipKeys tags).fst)
      ∧ strContains (searchOwnershipKeys tags).fst ServerTagCluster = true)
    ∧ ((searchOwnershipKeys tags).snd ≠ "" →
      (∃ kv ∈ tags, kv.fst = (searchOwnershipKeys tags).snd)
      ∧ strContains (searchOwnershipKeys tags).snd ServerTagRole = true)
    ∧ (∀ ex : Executor, ex.config.tags = tags →
        ∀ providerID srv, (DecodeProviderID providerID == "") = false →
        ex.compute.getServer 0 (DecodeProviderID providerID) = .ok srv →
        (getMachineByProviderID ex providerID = .ok srv ↔
          hasOwnershipTags tags srv.metadata = true))
    ∧ (∀ ex : Executor, ex.config.tags = tags →
        ((searchOwnershipKeys tags).fst == "") = false →
        ((searchOwnershipKeys tags).snd == "") = false →
        ∀ machineName listed srv,
        ex.compute.listServers machineName = .ok listed →
        getMachineByName ex machineName = .ok srv →
        srv ∈ listed ∧ (srv.name == machineName) = true
          ∧ hasOwnershipTags tags srv.metadata = true)
    ∧ (∀ ex : Executor, ex.config.tags = tags →
        ((searchOwnershipKeys tags).fst == "") = false →
        ((searchOwnershipKeys tags).snd == "") = false →
        ∀ listed, ex.compute.listServers "" = .ok listed →
        listMachines ex = .ok (listed.filterMap (fun srv =>
          if hasOwnershipTags tags srv.metadata then
            some (EncodeProviderID ex.config.region srv.id, srv.name)
          else none))) := by
  refine ⟨fun h1 => ?_, fun h2 => ?_, ?_, ?_, ?_⟩
  · rcases searchFold_fst tags ("", "") with h | h
    · exact absurd h h1
    · exact h
  · rcases searchFold_snd tags ("", "") with h | h
    · exact absurd h h2
    · exact h
  · intro ex htags providerID srv hdec hget
    simp only [getMachineByProviderID, isEmptyString, hdec, Bool.false_eq_true, if_false,
      hget, htags]
    unfold hasOwnershipTags
    by_cases hc : (srv.metadata.lookup (searchOwnershipKeys tags).fst).isSome
    · by_cases hr : (srv.metadata.lookup (searchOwnershipKeys tags).snd).isSome
      · simp [hc, hr]
      · simp [hc, hr]
    · simp [hc]
  · intro ex htags hkc hkr machineName listed srv hlist hok
    simp only [getMachineByName, htags, hkc, hkr, Bool.or_self, Bool.false_eq_true, if_false,
      hlist] at hok
    rcases hml : listed.filter (fun server =>
        server.name == machineName
        && (server.metadata.lookup (searchOwnershipKeys tags).fst).isSome
        && (server.metadata.lookup (searchOwnershipKeys tags).snd).isSome) with _ | ⟨s, rest⟩
    · rw [hml] at hok
      simp at hok
    · rw [hml] at hok
      by_cases hlen : (s :: rest).length > 1
      · rw [if_pos hlen] at hok
        cases hok
      · rw [if_neg hlen] at hok
        have hs : s = srv := Except.ok.inj hok
        have hmem : srv ∈ listed.filter (fun server =>
            server.name == machineName
            && (server.metadata.lookup (searchOwnershipKeys tags).fst).isSome
            && (server.metadata.lookup (searchOwnershipKeys tags).snd).isSome) := by
          rw [hml, ← hs]
          exact List.mem_cons_self _ _
        have hsp := List.mem_filter.mp hmem
        have h3 := hsp.2
        simp only [Bool.and_eq_true] at h3
        refine ⟨hsp.1, h3.1.1, ?_⟩
        unfold hasOwnershipTags
        simp [h3.1.2, h3.2]
  · intro ex htags hkc hkr listed hlist
    simp only [listMachines, htags, hkc, hkr, Bool.or_self, Bool.false_eq_true, if_false,
      hlist]
    unfold hasOwnershipTags
    rfl

/-- C7 counterexample: a configured tag name that merely contains the
cluster marker without starting with it is selected as the cluster
ownership key, so the identification is containment, not prefix match. -/
theorem c7_counterexample :
    (searchOwnershipKeys [("xkubernetes.io-cluster-shoot", "1")]).fst
        = "xkubernetes.io-cluster-shoot"
    ∧ ServerTagCluster.toList.isPrefixOf "xkubernetes.io-cluster-shoot".toList = false := by
  decide

/-- C7 executor: identifier lookup against a server carrying both
ownership keys. -/
def exC7 : Executor :=
  { compute := { stubCompute with
      getServer := fun _ sid => if sid == "id-1" then .ok srvC1 else .error (.clientNotFound "404") }
    network := stubNetwork
    config := { stubConfig with tags := tagsC1 } }

/-- C7 witness: the two-key test accepts a concrete tagged server in
identifier lookup. -/
theorem c7_witness : getMachineByProviderID exC7 "openstack:///r/id-1" = .ok srvC1 :=
  ((c7_ownership_two_key_test tagsC1).2.2.1 exC7 rfl "openstack:///r/id-1" srvC1
    (by decide) rfl).mpr (by decide)

/-- C5: after a successful submission, a failure of the build wait or of
the port patching triggers exactly one compensating delete for the created
instance (the instrumentation counter is one), and the returned error is
the original failure when the compensating delete succeeds, or the
combined error carrying both the rollback failure and the original
failure when it does not — the original error is never masked. -/
theorem c5_createMachine_rollback (ex : Executor) (machineName userData : String)
    (nets : List ServerNetwork) (server : Server) (orig : Err)
    (h1 : (computeServerNetworks ex machineName).fst = .ok nets)
    (h2 : deployServer ex machineName userData nets = .ok server)
    (h3 : (∃ e, waitForStatus ex server.id [ServerStatusBuild] [ServerStatusActive] 600 = .error e
            ∧ orig = .wrap ("error waiting for server " ++ server.id ++ " to reach target status") e)
        ∨ (∃ k e, waitForStatus ex server.id [ServerStatusBuild] [ServerStatusActive] 600 = .ok k
            ∧ patchServerPortsForPodNetwork ex server.id = .error e
            ∧ orig = .wrapv ("failed to patch server " ++ server.id ++ " ports") e)) :
    createMachine ex machineName userData =
      (.error (match deleteMachine ex machineName (EncodeProviderID ex.config.region server.id) with
        | .error errIn => .rollbackFailed errIn orig
        | .ok _ => orig), 1) := by
  rcases h3 with ⟨e, hw, horig⟩ | ⟨k, e, hw, hp, horig⟩
  · subst horig
    simp only [createMachine, h1, h2, hw]
    cases hd : deleteMachine ex machineName (EncodeProviderID ex.config.region server.id) with
    | error errIn => rfl
    | ok u => rfl
  · subst horig
    simp only [createMachine, h1, h2, hw, hp]
    cases hd : deleteMachine ex machineName (EncodeProviderID ex.config.region server.id) with
    | error errIn => rfl
    | ok u => rfl

/-- C5 scripted server: submitted successfully, then lands in the error
state. -/
def srvC5err : Server :=
  { id := "id-1", name := "m", status := ServerStatusError, metadata := tagsC1, fault := "boom" }

/-- C5 compute client: creation succeeds, the first status query reports
the error state, later queries report absence, deletion succeeds. -/
def computeC5 : ComputeClient :=
  { stubCompute with
    createServer := fun _ => .ok srvC5err
    getServer := fun tick _ => if tick == 0 then .ok srvC5err else .error (.clientNotFound "404")
    deleteServer := fun _ => .ok ()
    flavorIDFromName := fun _ => .ok "flv" }

/-- C5 executor: explicit network, explicit image id, resolvable tags. -/
def exC5 : Executor :=
  { compute := computeC5
    network := stubNetwork
    config := { stubConfig with networkID := "N", imageID := "img", tags := tagsC1 } }

/-- C5 witness: the build wait fails on the error state, one compensating
delete runs and succeeds, and the original wait error is returned. -/
theorem c5_witness :
    createMachine exC5 "m" "ud" =
      (.error (.wrap ("error waiting for server " ++ "id-1" ++ " to reach target status")
        (.unexpectedStatus ServerStatusError (some "boom"))), 1) := by
  have h := c5_createMachine_rollback exC5 "m" "ud" [{ uuid := "N", port := "" }] srvC5err
    (.wrap ("error waiting for server " ++ "id-1" ++ " to reach target status")
      (.unexpectedStatus ServerStatusError (some "boom")))
    rfl rfl (Or.inl ⟨.unexpectedStatus ServerStatusError (some "boom"), rfl, rfl⟩)
  exact h.trans rfl

end OSExec
